import Mathlib

/-!
Verification of the persistence core of the Krzys state-tracking service
(`src/app.py`): a singleton status record plus an append-only history log,
stored in SQLite behind one global lock.

Modelling conventions:
* The SQLite database is a `DB` value: the `state` table is `Option StateRow`
  (the `CHECK (id = 1)` primary-key constraint allows at most one row), the
  `history` table is a `List HistoryRow` in insertion (rowid) order together
  with the `AUTOINCREMENT` counter `nextId`.
* Every storage operation runs under the single global `LOCK`, so the whole
  service is a sequential state machine; operations are pure functions
  `DB → ... → DB × result`.
* Timestamps (`datetime.utcnow().isoformat() + "Z"`) are modelled as abstract
  clock values `Timestamp := Nat`; each operation takes the current clock
  reading `now` as an explicit argument.  The ISO-8601 encoding of a monotone
  clock is order-preserving, so `≤` on `Timestamp` models string recency.
* JSON payloads (`json.dumps` / `json.loads`) are modelled by the inductive
  `Json`; a stored `content` TEXT column is a `Blob`: either the serialization
  of a `Json` value or a raw string that does not parse as JSON.  `json.loads`
  succeeds exactly on the first kind.  Python `dict`s keep insertion order,
  which the `Json.obj` field lists mirror.
* The FastAPI / pydantic boundary is modelled by contract: `HTTPException s`
  produces status `s`, a pydantic body-validation failure produces 422, any
  other uncaught exception (e.g. `RuntimeError`) produces 500.
-/

namespace KrzysApp

abbrev Timestamp := Nat

/-- JSON values, as produced by Python `json.dumps` / consumed by `json.loads`.
Object fields keep Python dict insertion order.  Numbers are modelled as `Rat`
(covering both Python ints and the REAL temperature column). -/
inductive Json where
  | null : Json
  | bool (b : Bool) : Json
  | num (q : Rat) : Json
  | str (s : String) : Json
  | obj (fields : List (String × Json)) : Json

/-- A row of the `state` table (`id` is fixed to 1 by the schema CHECK). -/
structure StateRow where
  energy : Int
  heart_rate : Int
  temperature : Rat
  mood : String
  last_updated : Timestamp
deriving DecidableEq

/-- The TEXT stored in the `content` column of `history`: either a string that
parses as JSON value `j` (in particular any `json.dumps` output), or a raw
string that does not parse as JSON. -/
inductive Blob where
  | json (j : Json) : Blob
  | raw (s : String) : Blob

/-- A row of the `history` table. -/
structure HistoryRow where
  id : Nat
  type : String
  who : Option String
  content : Blob
  ts : Timestamp

/-- The SQLite database `krzys.db`. -/
structure DB where
  state : Option StateRow
  history : List HistoryRow
  nextId : Nat

/-- A freshly created database: empty tables, AUTOINCREMENT starts at 1. -/
def emptyDB : DB := ⟨none, [], 1⟩

/-- The pydantic `StateUpdate` request model: four optional fields; pydantic
enforces `energy ∈ [0,100]` and `heart_rate ≥ 0` at parse time. -/
structure StateUpdate where
  energy : Option Int := none
  heart_rate : Option Int := none
  temperature : Option Rat := none
  mood : Option String := none
deriving DecidableEq

/-- The pydantic `Field` constraints of `StateUpdate`:
`energy = Field(None, ge=0, le=100)`, `heart_rate = Field(None, ge=0)`. -/
def StateUpdate.valid (p : StateUpdate) : Bool :=
  (match p.energy with
   | none => true
   | some e => decide (0 ≤ e) && decide (e ≤ 100)) &&
  (match p.heart_rate with
   | none => true
   | some h => decide (0 ≤ h))

/-- `payload.dict(exclude_none=True)` is empty iff every field is `None`. -/
def StateUpdate.isEmpty (p : StateUpdate) : Bool :=
  p.energy.isNone && p.heart_rate.isNone && p.temperature.isNone && p.mood.isNone

/-- The JSON object for `payload.dict(exclude_none=True)`: only the supplied
fields, in pydantic declaration order (Python dicts keep insertion order). -/
def StateUpdate.toJson (p : StateUpdate) : Json :=
  Json.obj
    ((match p.energy with | some e => [("energy", Json.num (e : Rat))] | none => []) ++
     (match p.heart_rate with | some h => [("heart_rate", Json.num (h : Rat))] | none => []) ++
     (match p.temperature with | some t => [("temperature", Json.num t)] | none => []) ++
     (match p.mood with | some m => [("mood", Json.str m)] | none => []))

/-- The `StateResponse` pydantic model / the JSON body returned by the state
endpoints. -/
structure StateResponse where
  energy : Int
  heart_rate : Int
  temperature : Rat
  mood : String
  updated_at : Timestamp
deriving DecidableEq

/-- Exceptions escaping a request handler, as the FastAPI layer sees them. -/
inductive AppError where
  | httpException (status : Nat) (detail : String) : AppError
  | requestValidationError : AppError
  | runtimeError (msg : String) : AppError
deriving DecidableEq

/-- The HTTP status FastAPI produces for each exception class:
`HTTPException` carries its own status, a pydantic request-validation failure
becomes 422 Unprocessable Entity, and any other exception (in particular
`RuntimeError`) becomes 500 Internal Server Error. -/
def AppError.status : AppError → Nat
  | .httpException s _ => s
  | .requestValidationError => 422
  | .runtimeError _ => 500

/-- `init_db`: creates the tables if absent (a no-op on the `DB` model) and,
when the `state` table is empty, seeds the singleton row with the defaults
`(100, 2, -5.5, "neutral", now)`. -/
def init_db (db : DB) (now : Timestamp) : DB :=
  match db.state with
  | some _ => db
  | none => { db with state := some ⟨100, 2, (-5.5 : Rat), "neutral", now⟩ }

/-- `get_state_from_db`: reads the singleton row; raises
`RuntimeError("State missing")` if it is absent. -/
def get_state_from_db (db : DB) : Except AppError StateResponse :=
  match db.state with
  | none => .error (.runtimeError "State missing")
  | some r => .ok ⟨r.energy, r.heart_rate, r.temperature, r.mood, r.last_updated⟩

/-- The `GET /state` handler (`get_state`): returns `get_state_from_db()`. -/
def get_state (db : DB) : Except AppError StateResponse :=
  get_state_from_db db

/-- The JSON object for the Python `state` dict built in `update_state_in_db`:
keys inserted in the order `energy, heart_rate, temperature, mood`
(`dict.update` overwrites values but never reorders existing keys). -/
def stateDictJson (energy heart_rate : Int) (temperature : Rat) (mood : String) : Json :=
  Json.obj
    [("energy", Json.num (energy : Rat)),
     ("heart_rate", Json.num (heart_rate : Rat)),
     ("temperature", Json.num temperature),
     ("mood", Json.str mood)]

/-- `update_state_in_db(changed)`: under the lock, reads the current row
(raising `RuntimeError("State missing")` if absent and leaving the database
untouched), merges `changed` over it with `state.update(changed)`, stamps
`ts = utcnow()`, writes the merged row back and inserts one `history` row
`("state", NULL, json.dumps({"changed": changed, "state": state}), ts)` in the
same transaction, committing both together.  Returns `{**state,
"updated_at": ts}`. -/
def update_state_in_db (db : DB) (changed : StateUpdate) (now : Timestamp) :
    DB × Except AppError StateResponse :=
  match db.state with
  | none => (db, .error (.runtimeError "State missing"))
  | some row =>
    let energy := changed.energy.getD row.energy
    let heart_rate := changed.heart_rate.getD row.heart_rate
    let temperature := changed.temperature.getD row.temperature
    let mood := changed.mood.getD row.mood
    let rec_content : Json :=
      Json.obj [("changed", changed.toJson),
                ("state", stateDictJson energy heart_rate temperature mood)]
    let hrow : HistoryRow := ⟨db.nextId, "state", none, .json rec_content, now⟩
    ({ state := some ⟨energy, heart_rate, temperature, mood, now⟩,
       history := db.history ++ [hrow],
       nextId := db.nextId + 1 },
     .ok ⟨energy, heart_rate, temperature, mood, now⟩)

/-- The `POST /state` handler (`update_state`): FastAPI first parses the body
against `StateUpdate` (422 on a pydantic range violation), the handler then
rejects an empty `payload.dict(exclude_none=True)` with `HTTPException(400)`,
and otherwise delegates to `update_state_in_db`. -/
def update_state (db : DB) (payload : StateUpdate) (now : Timestamp) :
    DB × Except AppError StateResponse :=
  if ¬ payload.valid then (db, .error .requestValidationError)
  else if payload.isEmpty then
    (db, .error (.httpException 400 "Brak pól do zaktualizowania"))
  else update_state_in_db db payload now

/-- `append_history_record(rec_type, who, content)`: stamps `ts = utcnow()`,
inserts one `history` row and returns `ts`. -/
def append_history_record (db : DB) (rec_type : String) (who : Option String)
    (content : Json) (now : Timestamp) : DB × Timestamp :=
  ({ db with
       history := db.history ++ [⟨db.nextId, rec_type, who, .json content, now⟩],
       nextId := db.nextId + 1 },
   now)

/-- One element of the list returned by `read_history`. -/
structure HistoryEntryOut where
  id : Nat
  type : String
  who : Option String
  content : Json
  ts : Timestamp

/-- `json.loads(r["content"])` with the corrupt-row fallback: a parseable blob
yields its payload, an unparseable one yields `{"raw": <original text>}`. -/
def parseContent : Blob → Json
  | .json j => j
  | .raw s => Json.obj [("raw", Json.str s)]

/-- `ORDER BY id DESC`: later rows come first.  (The SQL sort, applied to the
rows selected by the WHERE clause.) -/
def rowGe (a b : HistoryRow) : Prop := b.id ≤ a.id

instance : DecidableRel rowGe := fun a b => inferInstanceAs (Decidable (b.id ≤ a.id))

instance : IsTotal HistoryRow rowGe := ⟨fun a b => Nat.le_total b.id a.id⟩

instance : IsTrans HistoryRow rowGe := ⟨fun _ _ _ h h' => Nat.le_trans h' h⟩

/-- The rows selected by `read_history`'s SQL before ORDER BY: the optional
`WHERE type IN (...)` clause is added only when `types` is truthy in Python,
i.e. neither `None` nor the empty list. -/
def selectedRows (db : DB) (types : Option (List String)) : List HistoryRow :=
  match types with
  | none => db.history
  | some ts => if ts.isEmpty then db.history
               else db.history.filter (fun r => ts.contains r.type)

/-- The `LIMIT ?` clause, added only when `limit` is truthy in Python, i.e.
neither `None` nor 0; SQLite treats a negative LIMIT as unbounded. -/
def limitRows (limit : Option Int) (l : List HistoryRow) : List HistoryRow :=
  match limit with
  | none => l
  | some n => if n = 0 then l else if n < 0 then l else l.take n.toNat

/-- The rows produced by `read_history`'s SQL query, before the Python-side
content parsing: the optional type filter, then `ORDER BY id DESC`, then the
optional LIMIT. -/
def outRows (db : DB) (limit : Option Int) (types : Option (List String)) :
    List HistoryRow :=
  limitRows limit ((selectedRows db types).insertionSort rowGe)

/-- `read_history(limit, types)`: `SELECT ... FROM history` with the optional
type filter, `ORDER BY id DESC`, the optional LIMIT, and the per-row
`json.loads` with the `{"raw": ...}` fallback. -/
def read_history (db : DB) (limit : Option Int) (types : Option (List String)) :
    List HistoryEntryOut :=
  (outRows db limit types).map
    (fun r => ⟨r.id, r.type, r.who, parseContent r.content, r.ts⟩)

/-- The keys of a JSON object (in order); `[]` on non-objects. -/
def jsonKeys : Json → List String
  | .obj fs => fs.map Prod.fst
  | _ => []

/-- The JSON body returned by `POST /comm`. -/
structure CommResponse where
  status : String
  who : String
  ts : Timestamp
deriving DecidableEq

/-- The `POST /comm` handler (`comm`): the query parameter `who : int = 1` is
optional with default 1; values outside {0, 1} are rejected with
`HTTPException(400)`; 0 resolves to the label "krzys", 1 to "user"; the
message is appended as a `comm` history row. -/
def comm (db : DB) (message : String) (who : Option Int) (now : Timestamp) :
    DB × Except AppError CommResponse :=
  let w := who.getD 1
  if w ≠ 0 ∧ w ≠ 1 then
    (db, .error (.httpException 400 "Parametr who musi byc 0 (krzys) lub 1 (user)"))
  else
    let who_str := if w = 0 then "krzys" else "user"
    let res := append_history_record db "comm" (some who_str)
      (Json.obj [("message", Json.str message)]) now
    (res.1, .ok ⟨"saved", who_str, res.2⟩)

/-- The `GET /history` handler (`history`): an empty or absent `kind` means no
type filter; a `kind` outside {"state", "comm"} is rejected with
`HTTPException(400)`; otherwise `read_history` runs with `types=[kind]`. -/
def history (db : DB) (limit : Option Int) (kind : Option String) :
    Except AppError (Nat × List HistoryEntryOut) :=
  match kind with
  | none => let items := read_history db limit none; .ok (items.length, items)
  | some k =>
    if k = "" then let items := read_history db limit none; .ok (items.length, items)
    else if k ≠ "state" ∧ k ≠ "comm" then
      .error (.httpException 400 "kind musi być 'state' lub 'comm'")
    else let items := read_history db limit (some [k]); .ok (items.length, items)

/-! ### Sample databases used as concrete test inputs -/

/-- A history row with id `i`, type `t`, no actor, a trivial payload. -/
def mkRow (i : Nat) (t : String) : HistoryRow :=
  ⟨i, t, none, .json (Json.str "x"), i⟩

/-- The database of the spec's ordering/filtering example: ids 1..5, where
ids 2 and 4 are `comm` rows and ids 1, 3, 5 are `state` rows. -/
def exampleDB : DB :=
  ⟨some ⟨100, 2, (-5.5 : Rat), "neutral", 0⟩,
   [mkRow 1 "state", mkRow 2 "comm", mkRow 3 "state", mkRow 4 "comm", mkRow 5 "state"],
   6⟩

/-- A database whose second history row's content blob does not parse as
JSON. -/
def corruptDB : DB :=
  ⟨some ⟨100, 2, (-5.5 : Rat), "neutral", 0⟩,
   [⟨1, "comm", some "user", .json (Json.obj [("message", Json.str "ok")]), 1⟩,
    ⟨2, "comm", some "user", .raw "this is not valid json", 2⟩],
   3⟩

/-! ### Helper lemmas about `read_history` -/

theorem selectedRows_sublist (db : DB) (types : Option (List String)) :
    List.Sublist (selectedRows db types) db.history := by
  rcases types with _ | ts
  · exact List.Sublist.refl _
  · simp only [selectedRows]
    split_ifs
    · exact List.Sublist.refl _
    · exact List.filter_sublist _

theorem limitRows_sublist (limit : Option Int) (l : List HistoryRow) :
    List.Sublist (limitRows limit l) l := by
  rcases limit with _ | n
  · exact List.Sublist.refl _
  · simp only [limitRows]
    split_ifs
    · exact List.Sublist.refl _
    · exact List.Sublist.refl _
    · exact List.take_sublist _ _

theorem read_history_eq_map (db : DB) (limit : Option Int)
    (types : Option (List String)) :
    read_history db limit types =
      (outRows db limit types).map
        (fun r => ⟨r.id, r.type, r.who, parseContent r.content, r.ts⟩) := rfl

theorem outRows_pairwise (db : DB) (limit : Option Int)
    (types : Option (List String)) : (outRows db limit types).Pairwise rowGe :=
  List.Pairwise.sublist (limitRows_sublist _ _)
    (List.sorted_insertionSort rowGe _)

theorem outRows_subset (db : DB) (limit : Option Int)
    (types : Option (List String)) (r : HistoryRow)
    (hr : r ∈ outRows db limit types) : r ∈ selectedRows db types := by
  have h1 := (limitRows_sublist limit _).subset hr
  exact (List.mem_insertionSort rowGe).mp h1

theorem outRows_ids_nodup (db : DB) (limit : Option Int)
    (types : Option (List String))
    (h : (db.history.map HistoryRow.id).Nodup) :
    ((outRows db limit types).map HistoryRow.id).Nodup := by
  have h1 : ((selectedRows db types).map HistoryRow.id).Nodup :=
    h.sublist ((selectedRows_sublist db types).map _)
  have hperm : List.Perm
      (((selectedRows db types).insertionSort rowGe).map HistoryRow.id)
      ((selectedRows db types).map HistoryRow.id) :=
    (List.perm_insertionSort rowGe _).map _
  have h2 : (((selectedRows db types).insertionSort rowGe).map HistoryRow.id).Nodup :=
    hperm.nodup_iff.mpr h1
  exact h2.sublist ((limitRows_sublist limit _).map _)

/-! ### Claim theorems -/

/-- C7: `init_db` is idempotent — a second call changes nothing — every call
leaves exactly one row in the `state` table, and on an empty `state` table
the call seeds exactly `energy=100, heart_rate=2, temperature=-5.5,
mood="neutral"` with `last_updated` set to the current time. -/
theorem init_db_idempotent_and_seeds :
    (∀ (db : DB) (n1 n2 : Timestamp), init_db (init_db db n1) n2 = init_db db n1) ∧
    (∀ (db : DB) (n : Timestamp), (init_db db n).state.isSome = true) ∧
    (∀ (db : DB) (n : Timestamp), db.state = none →
      init_db db n =
        { db with state := some ⟨100, 2, (-5.5 : Rat), "neutral", n⟩ }) := by
  refine ⟨?_, ?_, ?_⟩
  · intro db n1 n2
    rcases h : db.state with _ | r
    · simp [init_db, h]
    · simp [init_db, h]
  · intro db n
    rcases h : db.state with _ | r <;> simp [init_db, h]
  · intro db n h
    simp [init_db, h]

/-- Witness for C7 at a fresh database. -/
theorem init_db_idempotent_and_seeds_witness :
    init_db (init_db emptyDB 3) 4 = init_db emptyDB 3 ∧
    (init_db emptyDB 3).state.isSome = true ∧
    init_db emptyDB 3 =
      { emptyDB with state := some ⟨100, 2, (-5.5 : Rat), "neutral", 3⟩ } :=
  ⟨init_db_idempotent_and_seeds.1 emptyDB 3 4,
   init_db_idempotent_and_seeds.2.1 emptyDB 3,
   init_db_idempotent_and_seeds.2.2 emptyDB 3 rfl⟩

/-- C4 counterexample: with the singleton row missing, `GET /state` raises
`RuntimeError("State missing")`, which the framework surfaces as a 500
Internal Server Error — neither a 404 nor any other 4xx client error. -/
theorem get_state_missing_row_cex :
    ∃ e, get_state emptyDB = Except.error e ∧ e.status = 500 ∧
      ¬ e.status = 404 ∧ ¬ (400 ≤ e.status ∧ e.status < 500) :=
  ⟨.runtimeError "State missing", rfl, rfl, by decide, by decide⟩

/-- C4 amended: when the singleton status row is missing, `GET /state` fails
with `RuntimeError("State missing")`, surfaced as a 500-equivalent server
error rather than a 404-equivalent client error. -/
theorem get_state_missing_row_500 (db : DB) (h : db.state = none) :
    get_state db = Except.error (AppError.runtimeError "State missing") ∧
    (AppError.runtimeError "State missing").status = 500 := by
  constructor
  · simp [get_state, get_state_from_db, h]
  · rfl

/-- Witness for the amended C4 at a fresh database. -/
theorem get_state_missing_row_500_witness :
    get_state emptyDB = Except.error (AppError.runtimeError "State missing") ∧
    (AppError.runtimeError "State missing").status = 500 :=
  get_state_missing_row_500 emptyDB rfl

/-- C10: `POST /comm` with the `who` query parameter omitted behaves exactly
as if `who=1` had been supplied: the message is accepted and recorded with
the label "user". -/
theorem comm_default_who (db : DB) (msg : String) (now : Timestamp) :
    comm db msg none now = comm db msg (some 1) now ∧
    (comm db msg none now).2 = Except.ok ⟨"saved", "user", now⟩ ∧
    (comm db msg none now).1.history =
      db.history ++ [⟨db.nextId, "comm", some "user",
        Blob.json (Json.obj [("message", Json.str msg)]), now⟩] := by
  refine ⟨rfl, ?_, ?_⟩ <;> simp [comm, append_history_record]

/-- C2: `update_state_in_db` is atomic: either it fails leaving the database
untouched, or it writes the merged record and appends exactly one
`state`-type history row whose content is the supplied change set together
with the merged record — never one write without the other. -/
theorem update_state_in_db_atomic (db : DB) (c : StateUpdate) (now : Timestamp) :
    ((update_state_in_db db c now).1 = db ∧
      ∃ m, (update_state_in_db db c now).2 =
        Except.error (AppError.runtimeError m)) ∨
    (∃ (v : StateResponse) (hrow : HistoryRow),
      (update_state_in_db db c now).2 = Except.ok v ∧
      (update_state_in_db db c now).1.state =
        some ⟨v.energy, v.heart_rate, v.temperature, v.mood, v.updated_at⟩ ∧
      (update_state_in_db db c now).1.history = db.history ++ [hrow] ∧
      hrow.type = "state" ∧ hrow.who = none ∧
      hrow.content = Blob.json (Json.obj
        [("changed", c.toJson),
         ("state", stateDictJson v.energy v.heart_rate v.temperature v.mood)])) := by
  obtain ⟨st, hist, nid⟩ := db
  rcases st with _ | row
  · exact Or.inl ⟨rfl, "State missing", rfl⟩
  · exact Or.inr ⟨_, _, rfl, rfl, rfl, rfl, rfl, rfl⟩

/-- C1: a valid non-empty partial update returns the full merged record:
every field absent from the change set keeps its prior value, every supplied
field takes the supplied value, and `updated_at` is the fresh stamp, which is
never smaller than the previous `updated_at` (the clock being monotone). -/
theorem update_state_in_db_merges (db : DB) (prev : StateRow) (c : StateUpdate)
    (now : Timestamp) (hs : db.state = some prev) (_hv : c.valid = true)
    (_hne : c.isEmpty = false) (hclock : prev.last_updated ≤ now) :
    ∃ v : StateResponse, (update_state_in_db db c now).2 = Except.ok v ∧
      (c.energy = none → v.energy = prev.energy) ∧
      (∀ x, c.energy = some x → v.energy = x) ∧
      (c.heart_rate = none → v.heart_rate = prev.heart_rate) ∧
      (∀ x, c.heart_rate = some x → v.heart_rate = x) ∧
      (c.temperature = none → v.temperature = prev.temperature) ∧
      (∀ x, c.temperature = some x → v.temperature = x) ∧
      (c.mood = none → v.mood = prev.mood) ∧
      (∀ x, c.mood = some x → v.mood = x) ∧
      v.updated_at = now ∧ prev.last_updated ≤ v.updated_at := by
  obtain ⟨st, hist, nid⟩ := db
  rcases st with _ | row
  · exact Option.noConfusion hs
  · cases Option.some.inj hs
    exact ⟨_, rfl,
      fun h => by simp [h], fun x h => by simp [h],
      fun h => by simp [h], fun x h => by simp [h],
      fun h => by simp [h], fun x h => by simp [h],
      fun h => by simp [h], fun x h => by simp [h],
      rfl, hclock⟩

/-- Witness for C1: updating only the mood on the example database. -/
theorem update_state_in_db_merges_witness :
    ∃ v : StateResponse,
      (update_state_in_db exampleDB { mood := some "happy" } 7).2 = Except.ok v ∧
      v.mood = "happy" ∧ v.energy = 100 ∧ v.updated_at = 7 := by
  obtain ⟨v, hok, hE0, hE1, hH0, hH1, hT0, hT1, hM0, hM1, hU, hLe⟩ :=
    update_state_in_db_merges exampleDB ⟨100, 2, (-5.5 : Rat), "neutral", 0⟩
      { mood := some "happy" } 7 rfl rfl rfl (by decide)
  exact ⟨v, hok, hM1 "happy" rfl, hE0 rfl, hU⟩

/-- C9: the `state` history row written by `update_state_in_db` has
`who = NULL`, its content is `{"changed": <change set>, "state": <snapshot>}`
where the snapshot has exactly the four keys `energy, heart_rate,
temperature, mood` (in particular no timestamp key), and the row's `ts`
equals the new `last_updated` stamped on the status record. -/
theorem state_history_entry_shape (db : DB) (prev : StateRow) (c : StateUpdate)
    (now : Timestamp) (hs : db.state = some prev) :
    ∃ (hrow : HistoryRow) (snap : Json),
      (update_state_in_db db c now).1.history = db.history ++ [hrow] ∧
      hrow.who = none ∧
      hrow.content = Blob.json (Json.obj [("changed", c.toJson), ("state", snap)]) ∧
      jsonKeys snap = ["energy", "heart_rate", "temperature", "mood"] ∧
      ¬ "last_updated" ∈ jsonKeys snap ∧ ¬ "updated_at" ∈ jsonKeys snap ∧
      ∃ newRow : StateRow, (update_state_in_db db c now).1.state = some newRow ∧
        hrow.ts = newRow.last_updated := by
  obtain ⟨st, hist, nid⟩ := db
  rcases st with _ | row
  · exact Option.noConfusion hs
  · cases Option.some.inj hs
    exact ⟨_, _, rfl, rfl, rfl, rfl, by simp [stateDictJson, jsonKeys],
      by simp [stateDictJson, jsonKeys], _, rfl, rfl⟩

/-- Witness for C9: an energy-only update on the example database. -/
theorem state_history_entry_shape_witness :
    ∃ (hrow : HistoryRow) (snap : Json),
      (update_state_in_db exampleDB { energy := some 50 } 9).1.history =
        exampleDB.history ++ [hrow] ∧
      hrow.who = none ∧
      jsonKeys snap = ["energy", "heart_rate", "temperature", "mood"] ∧
      ¬ "last_updated" ∈ jsonKeys snap ∧
      hrow.content = Blob.json (Json.obj
        [("changed", StateUpdate.toJson { energy := some 50 }), ("state", snap)]) := by
  obtain ⟨hrow, snap, h1, h2, h3, h4, h5, h6, hrest⟩ :=
    state_history_entry_shape exampleDB ⟨100, 2, (-5.5 : Rat), "neutral", 0⟩
      { energy := some 50 } 9 rfl
  exact ⟨hrow, snap, h1, h2, h4, h5, h3⟩

/-- C5: `POST /state` rejects out-of-range fields (energy −1, energy 101,
heart rate −1) and the empty change set with a 4xx client error, leaving the
store unchanged; the empty change set specifically gets a 400; in-range
non-empty updates are accepted when the singleton row exists. -/
theorem update_state_validation :
    (∀ (db : DB) (now : Timestamp),
      (update_state db { energy := some (-1) } now).1 = db ∧
      ∃ e, (update_state db { energy := some (-1) } now).2 = Except.error e ∧
        400 ≤ e.status ∧ e.status < 500) ∧
    (∀ (db : DB) (now : Timestamp),
      (update_state db { energy := some 101 } now).1 = db ∧
      ∃ e, (update_state db { energy := some 101 } now).2 = Except.error e ∧
        400 ≤ e.status ∧ e.status < 500) ∧
    (∀ (db : DB) (now : Timestamp),
      (update_state db { heart_rate := some (-1) } now).1 = db ∧
      ∃ e, (update_state db { heart_rate := some (-1) } now).2 = Except.error e ∧
        400 ≤ e.status ∧ e.status < 500) ∧
    (∀ (db : DB) (now : Timestamp),
      (update_state db {} now).1 = db ∧
      ∃ e, (update_state db {} now).2 = Except.error e ∧ e.status = 400) ∧
    (∀ (db : DB) (prev : StateRow) (c : StateUpdate) (now : Timestamp),
      db.state = some prev →
      (∀ x, c.energy = some x → 0 ≤ x ∧ x ≤ 100) →
      (∀ x, c.heart_rate = some x → 0 ≤ x) →
      c.isEmpty = false →
      ∃ v, (update_state db c now).2 = Except.ok v) := by
  refine ⟨?_, ?_, ?_, ?_, ?_⟩
  · intro db now
    exact ⟨rfl, .requestValidationError, rfl, by decide, by decide⟩
  · intro db now
    exact ⟨rfl, .requestValidationError, rfl, by decide, by decide⟩
  · intro db now
    exact ⟨rfl, .requestValidationError, rfl, by decide, by decide⟩
  · intro db now
    exact ⟨rfl, .httpException 400 "Brak pól do zaktualizowania", rfl, rfl⟩
  · intro db prev c now hs hE hH hne
    have hv : c.valid = true := by
      unfold StateUpdate.valid
      rcases he : c.energy with _ | x <;> rcases hh : c.heart_rate with _ | y
      · rfl
      · simp [hH y hh]
      · simp [(hE x he).1, (hE x he).2]
      · simp [(hE x he).1, (hE x he).2, hH y hh]
    have hrun : update_state db c now = update_state_in_db db c now := by
      simp [update_state, hv, hne]
    rw [hrun]
    obtain ⟨st, hist, nid⟩ := db
    rcases st with _ | row
    · exact Option.noConfusion hs
    · exact ⟨_, rfl⟩

/-- Witness for C5: a rejected out-of-range update and an accepted in-range
update on the example database. -/
theorem update_state_validation_witness :
    ((update_state exampleDB { energy := some (-1) } 9).1 = exampleDB ∧
      ∃ e, (update_state exampleDB { energy := some (-1) } 9).2 = Except.error e ∧
        400 ≤ e.status ∧ e.status < 500) ∧
    ∃ v, (update_state exampleDB { mood := some "ok" } 9).2 = Except.ok v := by
  refine ⟨update_state_validation.1 exampleDB 9, ?_⟩
  exact update_state_validation.2.2.2.2 exampleDB ⟨100, 2, (-5.5 : Rat), "neutral", 0⟩
    { mood := some "ok" } 9 rfl
    (fun x hx => Option.noConfusion hx) (fun x hx => Option.noConfusion hx) rfl

/-- C6: `read_history` never raises on and never drops corrupt rows: with no
filter and no limit it returns one entry per stored row, a row whose content
blob parses comes back as the parsed payload, and an unparseable one comes
back as `{"raw": <original stored text>}`. -/
theorem read_history_corrupt_resilient (db : DB) :
    (read_history db none none).length = db.history.length ∧
    (∀ r ∈ db.history, ∃ e ∈ read_history db none none,
      e.id = r.id ∧ e.type = r.type ∧ e.who = r.who ∧ e.ts = r.ts ∧
      e.content = parseContent r.content) ∧
    (∀ s, parseContent (Blob.raw s) = Json.obj [("raw", Json.str s)]) ∧
    (∀ j, parseContent (Blob.json j) = j) := by
  refine ⟨?_, ?_, fun _ => rfl, fun _ => rfl⟩
  · rw [read_history_eq_map, List.length_map]
    exact (List.perm_insertionSort rowGe db.history).length_eq
  · intro r hr
    have h1 : r ∈ outRows db none none := (List.mem_insertionSort rowGe).mpr hr
    exact ⟨_, List.mem_map_of_mem _ h1, rfl, rfl, rfl, rfl, rfl⟩

/-- Witness for C6 on a database with one parseable and one corrupt row. -/
theorem read_history_corrupt_resilient_witness :
    (read_history corruptDB none none).length = 2 ∧
    ∃ e ∈ read_history corruptDB none none,
      e.id = 2 ∧ e.content = Json.obj [("raw", Json.str "this is not valid json")] := by
  obtain ⟨hlen, hmem, hraw, hjson⟩ := read_history_corrupt_resilient corruptDB
  obtain ⟨e, he, h1, h2, h3, h4, h5⟩ := hmem
    ⟨2, "comm", some "user", Blob.raw "this is not valid json", 2⟩
    (List.Mem.tail _ (List.Mem.head _))
  exact ⟨hlen, e, he, h1, h5⟩

theorem take_one_of_sorted_max (l : List HistoryRow) (x : HistoryRow)
    (hs : List.Sorted rowGe l) (hx : x ∈ l)
    (hmax : ∀ y ∈ l, y = x ∨ y.id < x.id) : l.take 1 = [x] := by
  cases l with
  | nil => cases hx
  | cons h t =>
    have hh : h = x := by
      rcases hmax h (List.mem_cons_self h t) with h1 | h2
      · exact h1
      · rcases List.mem_cons.mp hx with rfl | hxt
        · exact absurd h2 (lt_irrefl _)
        · have h3 : rowGe h x := (List.sorted_cons.mp hs).1 x hxt
          exact absurd (lt_of_le_of_lt h3 h2) (lt_irrefl _)
    rw [hh]
    rfl

/-- C3: `read_history` output is ordered by id descending (strictly so when
the stored ids are distinct); a type filter keeps exactly the matching rows;
a positive limit bounds the row count after filtering; a non-positive or
absent limit is unbounded, returning every matching row; and on the spec's
5-row example the `comm` filter yields ids [4, 2] and limit 2 yields
ids [5, 4]. -/
theorem read_history_order_filter_limit :
    (∀ (db : DB) (limit : Option Int) (types : Option (List String)),
      (read_history db limit types).Pairwise (fun a b => b.id ≤ a.id)) ∧
    (∀ (db : DB) (limit : Option Int) (types : Option (List String)),
      (db.history.map HistoryRow.id).Nodup →
      (read_history db limit types).Pairwise (fun a b => b.id < a.id)) ∧
    (∀ (db : DB) (limit : Option Int) (ts : List String), ts ≠ [] →
      ∀ e ∈ read_history db limit (some ts), e.type ∈ ts) ∧
    (∀ (db : DB) (types : Option (List String)) (n : Int), 0 < n →
      (read_history db (some n) types).length ≤ n.toNat) ∧
    (∀ (db : DB) (types : Option (List String)) (n : Int), n ≤ 0 →
      read_history db (some n) types = read_history db none types) ∧
    (∀ (db : DB) (ts : List String) (r : HistoryRow), r ∈ db.history →
      r.type ∈ ts → ∃ e ∈ read_history db none (some ts),
        e.id = r.id ∧ e.type = r.type ∧ e.who = r.who ∧ e.ts = r.ts ∧
        e.content = parseContent r.content) ∧
    (read_history exampleDB none (some ["comm"])).map HistoryEntryOut.id = [4, 2] ∧
    (read_history exampleDB (some 2) none).map HistoryEntryOut.id = [5, 4] := by
  refine ⟨?_, ?_, ?_, ?_, ?_, ?_, by decide, by decide⟩
  · intro db limit types
    rw [read_history_eq_map, List.pairwise_map]
    exact outRows_pairwise db limit types
  · intro db limit types hnd
    rw [read_history_eq_map, List.pairwise_map]
    have h1 := outRows_pairwise db limit types
    have h2 : (outRows db limit types).Pairwise (fun a b => a.id ≠ b.id) :=
      List.pairwise_map.mp (outRows_ids_nodup db limit types hnd)
    exact (h1.and h2).imp (fun h => lt_of_le_of_ne h.1 (Ne.symm h.2))
  · intro db limit ts hts e he
    rw [read_history_eq_map] at he
    obtain ⟨r, hr, rfl⟩ := List.mem_map.mp he
    have h1 := outRows_subset db limit (some ts) r hr
    have hne : ts.isEmpty = false := by
      rcases ts with _ | ⟨a, ts'⟩
      · exact absurd rfl hts
      · rfl
    simp only [selectedRows, hne, Bool.false_eq_true, if_false] at h1
    simpa using (List.mem_filter.mp h1).2
  · intro db types n hn
    have h0 : ¬ n = 0 := by omega
    have h1 : ¬ n < 0 := by omega
    rw [read_history_eq_map, List.length_map]
    unfold outRows limitRows
    simp only [h0, h1, if_false]
    exact List.length_take_le _ _
  · intro db types n hn
    rw [read_history_eq_map, read_history_eq_map]
    unfold outRows limitRows
    by_cases h0 : n = 0
    · simp [h0]
    · have h1 : n < 0 := by omega
      simp [h0, h1]
  · intro db ts r hr hrt
    have hcont : ts.contains r.type = true := by simpa using hrt
    have hne : ts.isEmpty = false := by
      rcases ts with _ | ⟨a, ts'⟩
      · cases hrt
      · rfl
    have h1 : r ∈ selectedRows db (some ts) := by
      simp only [selectedRows, hne, Bool.false_eq_true, if_false]
      exact List.mem_filter.mpr ⟨hr, hcont⟩
    have h2 : r ∈ outRows db none (some ts) :=
      (List.mem_insertionSort rowGe).mpr h1
    exact ⟨_, List.mem_map_of_mem _ h2, rfl, rfl, rfl, rfl, rfl⟩

/-- Witness for C3 on the spec's example database. -/
theorem read_history_order_filter_limit_witness :
    (read_history exampleDB none (some ["comm"])).Pairwise (fun a b => b.id < a.id) ∧
    (∀ e ∈ read_history exampleDB none (some ["comm"]), e.type ∈ ["comm"]) ∧
    (read_history exampleDB (some 2) none).length ≤ (2 : Int).toNat ∧
    read_history exampleDB (some (-3)) none = read_history exampleDB none none :=
  ⟨read_history_order_filter_limit.2.1 exampleDB none (some ["comm"]) (by decide),
   read_history_order_filter_limit.2.2.1 exampleDB none ["comm"] (by decide),
   read_history_order_filter_limit.2.2.2.1 exampleDB none 2 (by decide),
   read_history_order_filter_limit.2.2.2.2.1 exampleDB none (-3) (by decide)⟩

/-- C8: appending a `comm` entry for "user" and then querying with
`types=["comm"], limit=1` returns exactly that entry, whose content and actor
label round-trip; at the HTTP boundary `who` outside {0, 1} is rejected with
a 400 and no write, while `who=0` resolves to the label "krzys" and `who=1`
to "user". -/
theorem comm_roundtrip :
    (∀ (db : DB) (msg : String) (now : Timestamp),
      (∀ r ∈ db.history, r.id < db.nextId) →
      read_history
        (append_history_record db "comm" (some "user")
          (Json.obj [("message", Json.str msg)]) now).1
        (some 1) (some ["comm"]) =
      [⟨db.nextId, "comm", some "user", Json.obj [("message", Json.str msg)], now⟩]) ∧
    (∀ (db : DB) (msg : String) (now : Timestamp) (w : Int), w ≠ 0 → w ≠ 1 →
      (comm db msg (some w) now).1 = db ∧
      (comm db msg (some w) now).2 =
        Except.error (AppError.httpException 400
          "Parametr who musi byc 0 (krzys) lub 1 (user)")) ∧
    (∀ (db : DB) (msg : String) (now : Timestamp),
      (comm db msg (some 0) now).2 = Except.ok ⟨"saved", "krzys", now⟩) ∧
    (∀ (db : DB) (msg : String) (now : Timestamp),
      (comm db msg (some 1) now).2 = Except.ok ⟨"saved", "user", now⟩) := by
  refine ⟨?_, ?_, fun _ _ _ => rfl, fun _ _ _ => rfl⟩
  · intro db msg now hid
    rw [read_history_eq_map]
    set nr : HistoryRow := ⟨db.nextId, "comm", some "user",
      Blob.json (Json.obj [("message", Json.str msg)]), now⟩ with hnr
    set p : HistoryRow → Bool :=
      fun r => (["comm"] : List String).contains r.type with hp
    have hsel : selectedRows
        (append_history_record db "comm" (some "user")
          (Json.obj [("message", Json.str msg)]) now).1 (some ["comm"]) =
        db.history.filter p ++ [nr] := by
      have h0 : selectedRows
          (append_history_record db "comm" (some "user")
            (Json.obj [("message", Json.str msg)]) now).1 (some ["comm"]) =
          (db.history ++ [nr]).filter p := rfl
      rw [h0, List.filter_append]
      rfl
    unfold outRows
    rw [hsel]
    have hsorted : List.Sorted rowGe
        ((db.history.filter p ++ [nr]).insertionSort rowGe) :=
      List.sorted_insertionSort rowGe _
    have hmem : nr ∈ (db.history.filter p ++ [nr]).insertionSort rowGe :=
      (List.mem_insertionSort rowGe).mpr
        (List.mem_append_right _ (List.mem_cons_self _ _))
    have hmax : ∀ y ∈ (db.history.filter p ++ [nr]).insertionSort rowGe,
        y = nr ∨ y.id < nr.id := by
      intro y hy
      rcases List.mem_append.mp ((List.mem_insertionSort rowGe).mp hy) with h1 | h2
      · exact Or.inr (hid y (List.mem_of_mem_filter h1))
      · exact Or.inl (List.mem_singleton.mp h2)
    have htake := take_one_of_sorted_max _ nr hsorted hmem hmax
    have hlim : limitRows (some 1)
        ((db.history.filter p ++ [nr]).insertionSort rowGe) =
        ((db.history.filter p ++ [nr]).insertionSort rowGe).take 1 := rfl
    rw [hlim, htake]
    rfl
  · intro db msg now w h0 h1
    have hcond : ((some w).getD 1 ≠ 0 ∧ (some w).getD 1 ≠ 1) := ⟨h0, h1⟩
    constructor
    · show (if (some w).getD 1 ≠ 0 ∧ (some w).getD 1 ≠ 1 then _ else _ :
        DB × Except AppError CommResponse).1 = db
      rw [if_pos hcond]
    · show (if (some w).getD 1 ≠ 0 ∧ (some w).getD 1 ≠ 1 then _ else _ :
        DB × Except AppError CommResponse).2 = _
      rw [if_pos hcond]

/-- Witness for C8: round-trip on a fresh database and a rejected `who=2`. -/
theorem comm_roundtrip_witness :
    read_history
      (append_history_record emptyDB "comm" (some "user")
        (Json.obj [("message", Json.str "hi")]) 5).1
      (some 1) (some ["comm"]) =
      [⟨1, "comm", some "user", Json.obj [("message", Json.str "hi")], 5⟩] ∧
    (comm emptyDB "hi" (some 2) 5).2 =
      Except.error (AppError.httpException 400
        "Parametr who musi byc 0 (krzys) lub 1 (user)") :=
  ⟨comm_roundtrip.1 emptyDB "hi" 5 (fun r hr => absurd hr (List.not_mem_nil r)),
   (comm_roundtrip.2.1 emptyDB "hi" 5 2 (by decide) (by decide)).2⟩

end KrzysApp
